import Mathlib

/-!
Verification of the mudbot control-flow scheduler and task/phase manager.

This file gives a shallow embedding of the repository's core control logic:
`src/nodes.py` (observe/analyze/act/manage_knowledge/sync), `src/planner.py`
(planner node and its helpers), `src/agent.py` (the reconnect supervisory
loop), and `src/config.py` constants.  The oracle (LLM) is modelled as a
parameter: every node function takes the oracle's validated decision record
as an explicit argument, since the retry/validation wrapper guarantees a
validator-accepted structured result.  On-disk persistence is modelled at
the JSON-value level: `json.dump` with fixed settings is a deterministic
injective serializer, so document-value equality corresponds to byte
equality for files the program writes.
-/

namespace Mudbot

/-! ## Configuration constants (src/config.py) -/

def MAX_HISTORY_ROUNDS : Nat := 50

def KB_CONSOLIDATION_INTERVAL : Nat := 20

def MAX_TASK_ATTEMPTS : Nat := 50

/-! ## Data model (src/state.py and task dictionaries) -/

/-- Task status strings used throughout the source
(`pending|in_progress|completed|stuck|skipped`). -/
inductive Status where
  | pending
  | in_progress
  | completed
  | stuck
  | skipped
deriving DecidableEq, Repr

/-- A task dictionary as created by `planner.py` (`{id, description, status,
result}`, with `plan` added on assignment).  `result`/`plan` are `none` when
the key is absent or `None`. -/
structure Task where
  id : String
  description : String
  status : Status
  result : Option String
  plan : Option String
deriving DecidableEq, Repr

/-- A knowledge entry `{content, category}` as appended by
`manage_knowledge` and produced by `load_kb`'s upgrade path. -/
structure KBEntry where
  content : String
  category : String
deriving DecidableEq, Repr

/-- Summary of a completed phase's task (`planner.py`, phase-advance branch):
id, description truncated to 80 characters, and the stored result value. -/
structure TaskSummary where
  id : String
  description : String
  result : Option String
deriving DecidableEq, Repr

/-- The `phase_summary` dict appended to `completed_phases` in `planner.py`. -/
structure PhaseSummary where
  phase : Nat
  name : String
  tasks_summary : List TaskSummary
  key_findings : String
deriving DecidableEq, Repr

/-- The `AgentState` TypedDict from `src/state.py`, minus the `client`/`llm`
handles (external collaborators).  The empty dict `{}` used by the source for
"no current task" is modelled as `none`; the in-flight `Future` handle is
modelled as `Option Unit` (present or absent).  Missing keys read through
`state.get(k, default)` are modelled by their defaults. -/
structure AgentState where
  server_output : String
  server_output_clean : String
  history : List String
  knowledge_base : List KBEntry
  phase : Nat
  phase_name : String
  tasks : List Task
  current_task : Option Task
  completed_phases : List PhaseSummary
  environment_type : String
  analysis : String
  payload : String
  should_reconnect : Bool
  should_stop : Bool
  should_exit : Bool
  task_completed : Bool
  task_stuck : Bool
  task_stuck_reason : String
  task_attempts : Nat
  kb_consolidation_counter : Nat
  kb_update_future : Option Unit
deriving DecidableEq, Repr

/-! ## Generic list helper

Python's `for t in tasks: if cond(t): mutate(t); break` pattern updates the
first matching element of a list in place; `updateFirst` is its functional
counterpart, used by the embeddings below. -/

def updateFirst (p : Task → Bool) (f : Task → Task) : List Task → List Task
  | [] => []
  | t :: ts => if p t then f t :: ts else t :: updateFirst p f ts

def isIP (t : Task) : Bool := t.status == Status.in_progress

def isPending (t : Task) : Bool := t.status == Status.pending

/-- Number of `in_progress` tasks in a list. -/
def countIP (l : List Task) : Nat := (l.filter isIP).length

/-! ## Knowledge store persistence (src/nodes.py: load_kb / save_kb) -/

/-- JSON values, for the persisted knowledge-store documents. -/
inductive Json where
  | jnull
  | jbool (b : Bool)
  | jnum (n : Int)
  | jstr (s : String)
  | jarr (xs : List Json)
  | jobj (fields : List (String × Json))
deriving Repr

/-- State of a per-phase knowledge-store file as seen by `load_kb`: missing
file, present but syntactically invalid JSON (`json.JSONDecodeError`), or a
parsed JSON array of items (the document the program writes is always an
array; `parsed` carries its items). -/
inductive KBFile where
  | missing
  | invalid
  | parsed (items : List Json)
deriving Repr

/-- Upgrade step of `load_kb`'s item loop: a plain string becomes
`{"content": s, "category": "unknown"}`, a dict passes through unchanged,
anything else is dropped. -/
def upgradeItem : Json → Option Json
  | .jstr s => some (.jobj [("content", .jstr s), ("category", .jstr "unknown")])
  | .jobj fs => some (.jobj fs)
  | _ => none

/-- Embedding of `load_kb` (src/nodes.py lines 71-95): missing file and
undecodable JSON both yield the empty list; otherwise each item of the
array is upgraded or dropped. -/
def load_kb : KBFile → List Json
  | .missing => []
  | .invalid => []
  | .parsed items => items.filterMap upgradeItem

/-- Embedding of `save_kb` (src/nodes.py lines 98-110) at the JSON-value
level: the persisted document is the JSON array of the entries.
`json.dump(kb, ensure_ascii=False, indent=2)` is deterministic, so two calls
produce identical bytes exactly when the document values are equal. -/
def save_kb (kb : List Json) : KBFile := .parsed kb

def isObj : Json → Bool
  | .jobj _ => true
  | _ => false

/-! ## Knowledge management (src/nodes.py: manage_knowledge and
_consolidate_knowledge) -/

/-- A candidate entry of the oracle's `new_entries` / `consolidated_entries`
lists.  `junk` stands for an element that is not a (truthy) dict;
`mk content category` for a dict whose `content`/`category` fields read
through `.get` with defaults `""` / `"unknown"`. -/
inductive NewEntryCand where
  | junk
  | mk (content : String) (category : String)
deriving DecidableEq, Repr

/-- The accepted/validated oracle responses `manage_knowledge` consumes:
one `new_entries` list (kb_validator guarantees a list) and, if the cycle
consolidates, one `consolidated_entries` list. -/
structure KBOracle where
  new_entries : List NewEntryCand
  consolidated : List NewEntryCand
deriving Repr

/-- The acceptance loop of `manage_knowledge` (lines 470-490): skip non-dict
entries and empty contents, skip exact-content duplicates against the list
as grown so far, append `{content, category}` otherwise, counting additions. -/
def acceptEntries : List KBEntry → Nat → List NewEntryCand → List KBEntry × Nat
  | kb, added, [] => (kb, added)
  | kb, added, .junk :: cs => acceptEntries kb added cs
  | kb, added, .mk content category :: cs =>
      if content = "" then acceptEntries kb added cs
      else if kb.any (fun e => e.content == content) then acceptEntries kb added cs
      else acceptEntries (kb ++ [⟨content, category⟩]) (added + 1) cs

/-- The `valid_entries` filter of `_consolidate_knowledge`: keep dicts with
a truthy `content`, rebuilt as `{content, category}`. -/
def consolidateValid (entries : List NewEntryCand) : List KBEntry :=
  entries.filterMap fun c =>
    match c with
    | .junk => none
    | .mk content category => if content = "" then none else some ⟨content, category⟩

/-- Embedding of `_consolidate_knowledge` (src/nodes.py lines 520-572): an
empty store is returned unchanged; otherwise the oracle's rewrite replaces
the store only when it contains at least one valid entry. -/
def consolidate_knowledge (entries : List NewEntryCand) (kb : List KBEntry) :
    List KBEntry :=
  if kb = [] then kb
  else
    let valid := consolidateValid entries
    if valid = [] then kb else valid

/-- Embedding of `manage_knowledge` (src/nodes.py lines 347-517), returning
`(knowledge_base, kb_consolidation_counter, added_count)`.  With neither
history nor tasks the node returns early without touching the counter.
Otherwise it runs the acceptance loop, increments the counter and, once the
counter reaches `KB_CONSOLIDATION_INTERVAL`, consolidates and resets it. -/
def manage_knowledge (o : KBOracle) (history : List String) (tasks : List Task)
    (kb : List KBEntry) (counter : Nat) : List KBEntry × Nat × Nat :=
  if history = [] ∧ tasks = [] then (kb, counter, 0)
  else
    let acc := acceptEntries kb 0 o.new_entries
    let counter1 := counter + 1
    if KB_CONSOLIDATION_INTERVAL ≤ counter1 then
      (consolidate_knowledge o.consolidated acc.1, 0, acc.2)
    else (acc.1, counter1, acc.2)

/-- One background knowledge-update cycle: the oracle's responses together
with the history/tasks snapshot the cycle ran against. -/
structure KBCycle where
  oracle : KBOracle
  history : List String
  tasks : List Task
deriving Repr

/-- Iterate `manage_knowledge` over a sequence of cycles, threading the
knowledge list and the consolidation counter. -/
def runKBCycles : List KBEntry × Nat → List KBCycle → List KBEntry × Nat
  | st, [] => st
  | (kb, c), cy :: rest =>
      let r := manage_knowledge cy.oracle cy.history cy.tasks kb c
      runKBCycles (r.1, r.2.1) rest

/-- Per-phase lists have at most one entry per distinct `content` string. -/
def contentsNodup (kb : List KBEntry) : Prop := (kb.map KBEntry.content).Nodup

instance (kb : List KBEntry) : Decidable (contentsNodup kb) := by
  unfold contentsNodup; infer_instance

/-! ## The analyze node (src/nodes.py lines 178-344) -/

/-- The validated decision record `analyze` extracts from the oracle's JSON
reply via `.get` with defaults (`main_logic_validator` only guarantees a dict
with an `analysis` key; missing keys read as their defaults, a missing or
`None` `environment_type` as `none`, a missing or `None` stuck reason as
`""`). -/
structure Decision where
  analysis : String
  next_payload : String
  task_completed : Bool
  task_result : String
  environment_type : Option String
  task_stuck : Bool
  task_stuck_reason : String
deriving DecidableEq, Repr

/-- The `for t in tasks: if t["id"] == current_task.get("id"): ... break`
update used by `analyze`: when there is no current task the comparison with
`None` never matches, so the list is unchanged. -/
def markFirst (tid : Option String) (st : Status) (res : String)
    (tasks : List Task) : List Task :=
  match tid with
  | none => tasks
  | some i => updateFirst (fun t => t.id == i)
      (fun t => { t with status := st, result := some res }) tasks

/-- Environment-type adoption in `analyze`: a truthy, non-`"null"` value
from the oracle replaces the current classification. -/
def envType (d : Decision) (cur : String) : String :=
  match d.environment_type with
  | some e => if e ≠ "" ∧ e ≠ "null" then e else cur
  | none => cur

/-- Embedding of the `analyze` node.  It increments the attempt counter,
records analysis/payload, adopts a truthy non-`"null"` environment type,
then: an oracle completion signal marks the task completed (checked first);
otherwise an oracle stuck signal or the attempt counter reaching
`MAX_TASK_ATTEMPTS` marks it stuck; otherwise the task continues.  Both
terminal branches reset `task_attempts` to 0. -/
def analyzeFn (d : Decision) (s : AgentState) : AgentState :=
  let attempts := s.task_attempts + 1
  let base :=
    { s with analysis := d.analysis, payload := d.next_payload,
             task_completed := false, task_stuck := false,
             task_attempts := attempts,
             environment_type := envType d s.environment_type }
  if d.task_completed then
    { base with
        task_completed := true,
        tasks := markFirst (s.current_task.map Task.id) Status.completed
          d.task_result s.tasks,
        current_task := s.current_task.map fun t =>
          { t with status := Status.completed, result := some d.task_result },
        task_attempts := 0 }
  else if d.task_stuck = true ∨ MAX_TASK_ATTEMPTS ≤ attempts then
    let reason :=
      if d.task_stuck_reason = "" then
        s!"任务已尝试 {attempts} 轮仍未完成，超过阈值 {MAX_TASK_ATTEMPTS}"
      else d.task_stuck_reason
    { base with
        task_stuck := true, task_stuck_reason := reason,
        tasks := markFirst (s.current_task.map Task.id) Status.stuck
          reason s.tasks,
        current_task := s.current_task.map fun t =>
          { t with status := Status.stuck, result := some reason },
        task_attempts := 0 }
  else base

/-! ## The planner node (src/planner.py) -/

/-- The fixed seed tasks of phase 1 (`PHASE1_TASKS` in src/planner.py).
They carry no `plan` key and a `None` result. -/
def PHASE1_TASKS : List Task :=
  [ { id := "P1-T1",
      description := "观察服务器的初始输出，判断这个socket连接是否基于文本的交互环境。如果收到二进制数据或无法解码的内容，则判定为非文本环境。",
      status := Status.pending, result := none, plan := none },
    { id := "P1-T2",
      description := "如果确认是文本环境，进一步分析这是什么类型的交互环境。可能的类型包括：文字MUD游戏、聊天系统、Linux Shell、大模型问答接口、BBS论坛、或其他类型。根据文本的格式、提示符、欢迎信息等特征进行判断。",
      status := Status.pending, result := none, plan := none } ]

/-- A raw task proposal inside the oracle's `tasks` list for
`_generate_phase_tasks`; missing keys are `none`. -/
structure GenTask where
  id : Option String
  description : Option String
deriving DecidableEq, Repr

/-- Embedding of `_generate_phase_tasks`' post-processing: each proposal
becomes a pending task with the source's defaults. -/
def mkTasks (phase : Nat) (g : List GenTask) : List Task :=
  g.map fun t =>
    { id := t.id.getD ("P" ++ toString phase ++ "-T?"),
      description := t.description.getD "",
      status := Status.pending, result := none, plan := none }

/-- The validated oracle responses the planner consumes in one invocation:
a generated task list (used when the phase's list is empty or on phase
advance), the new phase name, the execution plan for the assigned task
(its `.get` default is the fallback plan string), and the stuck-resolution
decision fields read through `.get`. -/
structure PlannerOracle where
  gen_tasks : List GenTask
  new_phase_name : String
  plan : String
  stuck_action : String
  stuck_new_description : Option String
  stuck_result_summary : Option String
deriving DecidableEq, Repr

/-- The updates dict `_handle_stuck_task` returns: a new status, optionally
a rewritten description, and the new `result` value (`none` models Python's
`None`). -/
structure TaskUpdates where
  status : Status
  description : Option String
  result : Option String
deriving DecidableEq, Repr

/-- Embedding of `_handle_stuck_task` (src/planner.py lines 357-415).  The
`new_description` default is the *current task's* description (when there is
no current task Python would carry `None`; no claim depends on that corner,
modelled as `""`). -/
def stuckUpdates (o : PlannerOracle) (ct : Option Task) (reason : String) :
    TaskUpdates :=
  let newDesc := o.stuck_new_description.getD ((ct.map Task.description).getD "")
  let summary := o.stuck_result_summary.getD reason
  if o.stuck_action = "skip" then
    { status := Status.skipped, description := none,
      result := some ("(跳过) " ++ summary) }
  else if o.stuck_action = "completed" then
    { status := Status.completed, description := none,
      result := some ("(部分完成) " ++ summary) }
  else if o.stuck_action = "pending" then
    { status := Status.pending, description := some newDesc, result := none }
  else
    { status := Status.skipped, description := none,
      result := some ("(异常跳过) " ++ reason) }

/-- Python's `t.update(updates)` applied to a task dict. -/
def applyUpdates (u : TaskUpdates) (t : Task) : Task :=
  { t with status := u.status,
           description := u.description.getD t.description,
           result := u.result }

/-- Step 1 of the planner: an empty task list is (re)filled — phase 1 from
the fixed seed, later phases from the oracle. -/
def fillTasks (o : PlannerOracle) (s : AgentState) : List Task :=
  if s.tasks = [] then
    if s.phase = 1 then PHASE1_TASKS else mkTasks s.phase o.gen_tasks
  else s.tasks

/-- The phase-completion test of planner step 2 (`all(t["status"] in
("completed", "skipped") for t in tasks)`). -/
def allDone (tasks : List Task) : Bool :=
  tasks.all fun t => t.status == Status.completed || t.status == Status.skipped

/-- Assignment applied to the selected task in planner step 3. -/
def setAssigned (plan : String) (t : Task) : Task :=
  { t with status := Status.in_progress, plan := some plan }

/-- Task selection and assignment of planner step 3 (src/planner.py lines
185-213): an `in_progress` task (interrupted by a reconnect) is re-selected
before any `pending` task; the selected task is assigned in place and a copy
becomes the current task. -/
def assignNext (plan : String) (tasks : List Task) : Option Task × List Task :=
  match tasks.find? isIP with
  | some t => (some (setAssigned plan t), updateFirst isIP (setAssigned plan) tasks)
  | none =>
    match tasks.find? isPending with
    | some t =>
        (some (setAssigned plan t), updateFirst isPending (setAssigned plan) tasks)
    | none => (none, tasks)

/-- `_extract_key_findings`: the truthy results of the phase's tasks. -/
def extractKeyFindings (tasks : List Task) : String :=
  let findings := tasks.filterMap fun t =>
    match t.result with
    | some r => if r = "" then none else some ("[" ++ t.id ++ "] " ++ r)
    | none => none
  if findings = [] then "无" else String.intercalate "; " findings

/-- The `phase_summary` built on phase advance. -/
def mkSummary (phase : Nat) (name : String) (tasks : List Task) : PhaseSummary :=
  { phase := phase, name := name,
    tasks_summary := tasks.map fun t =>
      { id := t.id, description := t.description.take 80, result := t.result },
    key_findings := extractKeyFindings tasks }

/-- Embedding of the `planner` node (src/planner.py lines 49-219).  In
order: refill an empty task list; resolve a stuck task (clearing the stuck
flag, the current task and the attempt counter); on a completed non-empty
task list either set the exit flag (`non_text` environment) or advance to
phase+1 with freshly generated tasks, a frozen summary and a reset knowledge
store; otherwise select and assign the next task. -/
def plannerFn (o : PlannerOracle) (s : AgentState) : AgentState :=
  let tasks := fillTasks o s
  if s.task_stuck then
    let tid := (s.current_task.map Task.id).getD "?"
    let upd := stuckUpdates o s.current_task s.task_stuck_reason
    { s with tasks := updateFirst (fun t => t.id == tid) (applyUpdates upd) tasks,
             current_task := none, task_stuck := false, task_stuck_reason := "",
             task_attempts := 0 }
  else if allDone tasks ∧ tasks ≠ [] then
    if s.environment_type = "non_text" then
      { s with tasks := tasks, current_task := none, should_exit := true }
    else
      let summary := mkSummary s.phase s.phase_name tasks
      match mkTasks (s.phase + 1) o.gen_tasks with
      | [] =>
        { s with phase := s.phase + 1, phase_name := o.new_phase_name,
                 tasks := [], current_task := none,
                 completed_phases := s.completed_phases ++ [summary],
                 task_completed := false, knowledge_base := [] }
      | t :: rest =>
        let t' := setAssigned o.plan t
        { s with phase := s.phase + 1, phase_name := o.new_phase_name,
                 tasks := t' :: rest, current_task := some t',
                 completed_phases := s.completed_phases ++ [summary],
                 task_completed := false, knowledge_base := [] }
  else
    match assignNext o.plan tasks with
    | (none, ts) => { s with tasks := ts, current_task := none, task_completed := false }
    | (some t', ts) =>
        { s with tasks := ts, current_task := some t', task_completed := false }

/-! ## Remaining graph nodes (src/nodes.py) and the reconnect reset
(src/agent.py) -/

/-- Embedding of `observe`: a lost connection (`receive()` returns `None`)
requests a reconnect; otherwise raw and cleaned output are recorded.  The
cleaning (`clean_ansi` plus the two noise-filter regexes) is the external
transport's stateless function, so the cleaned text arrives as part of the
read. -/
def observeFn (recv : Option (String × String)) (s : AgentState) : AgentState :=
  match recv with
  | none => { s with server_output := "", server_output_clean := "",
                     should_reconnect := true }
  | some (raw, cleaned) =>
      { s with server_output := raw, server_output_clean := cleaned,
               should_reconnect := false }

/-- Embedding of `start_knowledge_update_bg`: submits the snapshot and
stores the future handle. -/
def startKbBgFn (s : AgentState) : AgentState :=
  { s with kb_update_future := some () }

/-- Embedding of `act`: a non-empty payload is sent; on success the history
gains one entry, on transport failure a reconnect is requested (without the
history entry); an empty payload sends nothing. -/
def actFn (sendOk : Bool) (s : AgentState) : AgentState :=
  let entry := "In: " ++ s.payload ++ " | Out: " ++ s.server_output_clean.take 50 ++ "..."
  if s.payload ≠ "" then
    if sendOk then
      { s with history := s.history ++ [entry], should_reconnect := false }
    else { s with should_reconnect := true }
  else { s with should_reconnect := false }

/-- Embedding of `sync_knowledge_update`: with no future in flight nothing
changes; otherwise the background result (or `none` for a failed/timed-out
job) is merged and the handle cleared. -/
def syncFn (r : Option (List KBEntry × Nat × Nat)) (s : AgentState) : AgentState :=
  match s.kb_update_future with
  | none => s
  | some _ =>
    match r with
    | some (kb, c, _) =>
        { s with knowledge_base := kb, kb_consolidation_counter := c,
                 kb_update_future := none }
    | none => { s with kb_update_future := none }

/-- Embedding of the reconnect reset in `main` (src/agent.py lines 62-75):
outputs, payload, the future handle and the flags `should_reconnect`,
`should_stop`, `should_exit` are reset, the active phase's knowledge store
is reloaded from disk (`diskKB`), and everything else is carried over. -/
def reconnectReset (diskKB : List KBEntry) (s : AgentState) : AgentState :=
  { s with server_output := "", server_output_clean := "",
           should_reconnect := false, should_stop := false, should_exit := false,
           payload := "", kb_update_future := none,
           knowledge_base := diskKB }

/-- The initial state built in `main` (src/agent.py lines 32-52), with the
phase-1 knowledge store loaded from disk.  Keys the dict does not set
(`task_stuck`, `task_stuck_reason`, `task_attempts`, `kb_update_future`)
read through `.get` as their defaults. -/
def initState (diskKB : List KBEntry) : AgentState :=
  { server_output := "", server_output_clean := "", history := [],
    knowledge_base := diskKB, phase := 1, phase_name := "环境识别",
    tasks := [], current_task := none, completed_phases := [],
    environment_type := "unknown", analysis := "", payload := "",
    should_reconnect := false, should_stop := false, should_exit := false,
    task_completed := false, task_stuck := false, task_stuck_reason := "",
    task_attempts := 0, kb_consolidation_counter := 0,
    kb_update_future := none }

/-- States reachable from the initial state by the scheduler's steps, with
the oracle decisions, reads, send outcomes, background results and disk
contents arbitrary at every step. -/
inductive Reachable (dk : List KBEntry) : AgentState → Prop where
  | init : Reachable dk (initState dk)
  | planner {s} (o : PlannerOracle) : Reachable dk s → Reachable dk (plannerFn o s)
  | observe {s} (r : Option (String × String)) : Reachable dk s →
      Reachable dk (observeFn r s)
  | start_kb {s} : Reachable dk s → Reachable dk (startKbBgFn s)
  | analyze {s} (d : Decision) : Reachable dk s → Reachable dk (analyzeFn d s)
  | act {s} (ok : Bool) : Reachable dk s → Reachable dk (actFn ok s)
  | sync {s} (r : Option (List KBEntry × Nat × Nat)) : Reachable dk s →
      Reachable dk (syncFn r s)
  | reconnect {s} (kb : List KBEntry) : Reachable dk s →
      Reachable dk (reconnectReset kb s)

/-! ## Concrete example inputs used by witnesses and counterexamples -/

def kbC9 : List Json :=
  [Json.jobj [("content", Json.jstr "a"), ("category", Json.jstr "unknown")]]

def oC4 : KBOracle :=
  { new_entries := [.mk "n" "input_triggered"], consolidated := [.mk "z" "spontaneous"] }

def oC8 : KBOracle := { new_entries := [], consolidated := [.mk "b" "c1", .mk "b" "c2"] }

def cyC8w : KBCycle := ⟨⟨[.mk "n" "input_triggered"], [.mk "m" "x"]⟩, ["h"], []⟩

def tC1 : Task :=
  { id := "T1", description := "d", status := Status.in_progress,
    result := none, plan := some "p" }

def sC1 : AgentState :=
  { initState [] with tasks := [tC1], current_task := some tC1, task_attempts := 49 }

def dC1 : Decision :=
  { analysis := "a", next_payload := "", task_completed := true,
    task_result := "done", environment_type := none, task_stuck := true,
    task_stuck_reason := "r" }

def dC1w : Decision :=
  { analysis := "a", next_payload := "", task_completed := false,
    task_result := "", environment_type := none, task_stuck := false,
    task_stuck_reason := "" }

def sC3 : AgentState :=
  { initState [] with task_completed := true, task_stuck := true,
                      task_stuck_reason := "r", server_output := "x",
                      payload := "p", kb_update_future := some () }

def oW : PlannerOracle :=
  { gen_tasks := [], new_phase_name := "", plan := "p", stuck_action := "skip",
    stuck_new_description := none, stuck_result_summary := none }

def oC5 : PlannerOracle :=
  { gen_tasks := [], new_phase_name := "n", plan := "p", stuck_action := "skip",
    stuck_new_description := none, stuck_result_summary := none }

def sC5 : AgentState :=
  { initState [] with phase := 2, environment_type := "non_text" }

def tDone : Task :=
  { id := "P2-T1", description := "d", status := Status.completed,
    result := some "ok", plan := some "p" }

def sC5e : AgentState :=
  { initState [] with phase := 2, environment_type := "non_text", tasks := [tDone] }

def oC5a : PlannerOracle :=
  { gen_tasks := [⟨some "P3-T1", some "d3"⟩], new_phase_name := "进阶",
    plan := "p3", stuck_action := "skip", stuck_new_description := none,
    stuck_result_summary := none }

def sC5a : AgentState :=
  { initState [] with phase := 2, environment_type := "mud", tasks := [tDone] }

def sC5n : AgentState :=
  { initState [] with phase := 2, environment_type := "mud",
                      tasks := [{ tDone with status := Status.pending, result := none }] }

def tP6 : Task :=
  { id := "A", description := "d", status := Status.pending,
    result := none, plan := none }

def tI6 : Task :=
  { id := "B", description := "d", status := Status.in_progress,
    result := none, plan := some "old" }

def sC6 : AgentState := { initState [] with tasks := [tP6, tI6] }

def oC6 : PlannerOracle :=
  { gen_tasks := [], new_phase_name := "", plan := "newplan",
    stuck_action := "skip", stuck_new_description := none,
    stuck_result_summary := none }

def tC7 : Task :=
  { id := "T", description := "d", status := Status.in_progress,
    result := none, plan := none }

def dC7 : Decision :=
  { analysis := "a", next_payload := "x", task_completed := true,
    task_result := "ok", environment_type := none, task_stuck := false,
    task_stuck_reason := "" }

def sC7 : AgentState :=
  { initState [] with tasks := [tC7], current_task := some tC7, task_attempts := 3 }

def sC7p : AgentState :=
  { initState [] with task_stuck := true, task_stuck_reason := "r",
                      tasks := [{ tC7 with status := Status.stuck }],
                      current_task := some { tC7 with status := Status.stuck } }

/-! ## Counting lemmas for `in_progress` tasks -/

theorem countIP_cons (t : Task) (ts : List Task) :
    countIP (t :: ts) = (if isIP t then 1 else 0) + countIP ts := by
  simp only [countIP, List.filter_cons]
  by_cases h : isIP t <;> simp [h, Nat.add_comm]

theorem updateFirst_countIP_le {p : Task → Bool} {f : Task → Task}
    (hf : ∀ t, p t = true → isIP (f t) = false) (l : List Task) :
    countIP (updateFirst p f l) ≤ countIP l := by
  induction l with
  | nil => exact Nat.le_refl _
  | cons t ts ih =>
    by_cases h : p t
    · simp only [updateFirst, if_pos h]
      rw [countIP_cons, countIP_cons, hf t h]
      by_cases h2 : isIP t <;> simp [h2]
    · simp only [updateFirst, if_neg h]
      rw [countIP_cons, countIP_cons]
      exact Nat.add_le_add_left ih _

theorem updateFirst_countIP_le_succ (p : Task → Bool) (f : Task → Task)
    (l : List Task) : countIP (updateFirst p f l) ≤ countIP l + 1 := by
  induction l with
  | nil => simp [updateFirst]
  | cons t ts ih =>
    by_cases h : p t
    · simp only [updateFirst, if_pos h]
      rw [countIP_cons, countIP_cons]
      by_cases h1 : isIP (f t) <;> by_cases h2 : isIP t <;> simp [h1, h2] <;> omega
    · simp only [updateFirst, if_neg h]
      rw [countIP_cons, countIP_cons]
      omega

theorem updateFirst_countIP_eq {p : Task → Bool} {f : Task → Task}
    (hf : ∀ t, p t = true → isIP (f t) = isIP t) (l : List Task) :
    countIP (updateFirst p f l) = countIP l := by
  induction l with
  | nil => rfl
  | cons t ts ih =>
    by_cases h : p t
    · simp only [updateFirst, if_pos h]
      rw [countIP_cons, countIP_cons, hf t h]
    · simp only [updateFirst, if_neg h]
      rw [countIP_cons, countIP_cons, ih]

theorem countIP_eq_zero_of_find?_none {l : List Task}
    (h : l.find? isIP = none) : countIP l = 0 := by
  have h' := List.find?_eq_none.mp h
  simp only [countIP, List.length_eq_zero]
  exact List.filter_eq_nil_iff.mpr h'

theorem mkTasks_countIP (p : Nat) (g : List GenTask) : countIP (mkTasks p g) = 0 := by
  induction g with
  | nil => rfl
  | cons a g ih =>
    simp only [mkTasks, List.map_cons] at ih ⊢
    rw [countIP_cons]
    simp only [isIP]
    simpa using ih

theorem PHASE1_countIP : countIP PHASE1_TASKS = 0 := rfl

/-! ## C10: corrupted store loads as empty -/

/-- C10: loading a phase's knowledge store whose file exists but contains
syntactically invalid JSON returns the empty list rather than raising
(`load_kb` catches `json.JSONDecodeError`), so a corrupted store is treated
as empty exactly like a nonexistent one. -/
theorem load_kb_invalid_json_empty : load_kb KBFile.invalid = [] := rfl

/-! ## C9: load/save round trip on persisted stores -/

theorem load_save_id (kb : List Json) (h : ∀ j ∈ kb, isObj j = true) :
    kb.filterMap upgradeItem = kb := by
  induction kb with
  | nil => rfl
  | cons j rest ih =>
    have hj := h j (List.mem_cons_self j rest)
    have hrest : ∀ x ∈ rest, isObj x = true :=
      fun x hx => h x (List.mem_cons_of_mem j hx)
    cases j with
    | jobj fs =>
      simp only [List.filterMap_cons, upgradeItem]
      rw [ih hrest]
    | jnull => simp [isObj] at hj
    | jbool b => simp [isObj] at hj
    | jnum n => simp [isObj] at hj
    | jstr s => simp [isObj] at hj
    | jarr xs => simp [isObj] at hj

/-- C9 counterexample: a persisted legacy store holding a plain-string entry
(`["x"]`, which `load_kb` explicitly tolerates) does not round-trip: loading
upgrades the entry to a dict, so saving writes a different document (hence
different bytes). -/
theorem legacy_roundtrip_counterexample :
    save_kb (load_kb (KBFile.parsed [Json.jstr "x"])) ≠ KBFile.parsed [Json.jstr "x"] := by
  simp only [save_kb, load_kb, List.filterMap_cons, upgradeItem, List.filterMap_nil]
  intro h
  cases h

/-- C9 (amended): the load/save round trip is the identity on every store
persisted by `save_kb`, i.e. whose document is an array of object entries —
as all stores written by the program are; legacy stores containing
plain-string entries are instead rewritten in upgraded form. -/
theorem kb_roundtrip_identity (kb : List Json) (h : ∀ j ∈ kb, isObj j = true) :
    save_kb (load_kb (save_kb kb)) = save_kb kb := by
  unfold save_kb load_kb
  exact congrArg KBFile.parsed (load_save_id kb h)

/-- Witness for C9's amended theorem at a concrete store. -/
theorem kb_roundtrip_identity_witness :
    save_kb (load_kb (save_kb kbC9)) = save_kb kbC9 :=
  kb_roundtrip_identity kbC9 (by decide)

/-! ## C4: periodic consolidation -/

/-- C4: on a cycle with history or tasks, once the incremented counter
reaches `KB_CONSOLIDATION_INTERVAL`, full consolidation runs and the counter
resets to 0; the oracle's rewrite replaces the prior (post-acceptance) list
only if it has at least one valid entry, and the prior list is kept
otherwise; below the interval the counter just increments and no
consolidation happens. -/
theorem consolidation_interval_behavior (o : KBOracle) (history : List String)
    (tasks : List Task) (kb : List KBEntry) (c : Nat)
    (hrun : ¬(history = [] ∧ tasks = [])) :
    (KB_CONSOLIDATION_INTERVAL ≤ c + 1 →
      (manage_knowledge o history tasks kb c).2.1 = 0 ∧
      (consolidateValid o.consolidated = [] →
        (manage_knowledge o history tasks kb c).1 = (acceptEntries kb 0 o.new_entries).1) ∧
      ((acceptEntries kb 0 o.new_entries).1 ≠ [] → consolidateValid o.consolidated ≠ [] →
        (manage_knowledge o history tasks kb c).1 = consolidateValid o.consolidated)) ∧
    (c + 1 < KB_CONSOLIDATION_INTERVAL →
      (manage_knowledge o history tasks kb c).2.1 = c + 1 ∧
      (manage_knowledge o history tasks kb c).1 = (acceptEntries kb 0 o.new_entries).1) := by
  unfold manage_knowledge
  rw [if_neg hrun]
  constructor
  · intro hN
    rw [if_pos hN]
    refine ⟨rfl, ?_, ?_⟩
    · intro hv
      unfold consolidate_knowledge
      split
      · rfl
      · rw [hv]; simp
    · intro h1 h2
      unfold consolidate_knowledge
      rw [if_neg h1]
      simp only [if_neg h2]
  · intro hlt
    rw [if_neg (by omega : ¬KB_CONSOLIDATION_INTERVAL ≤ c + 1)]
    exact ⟨rfl, rfl⟩

/-- Witness for C4 at a concrete cycle: counter 19 reaches the interval of
20, consolidation runs, the counter resets and the non-empty rewrite
replaces the list. -/
theorem consolidation_interval_behavior_witness :
    (manage_knowledge oC4 ["h"] [] [⟨"a", "b"⟩] 19).2.1 = 0 ∧
    (manage_knowledge oC4 ["h"] [] [⟨"a", "b"⟩] 19).1 = consolidateValid oC4.consolidated := by
  have h := consolidation_interval_behavior oC4 ["h"] [] [⟨"a", "b"⟩] 19 (by simp)
  exact ⟨(h.1 (by decide)).1, (h.1 (by decide)).2.2 (by decide) (by decide)⟩

/-! ## C8: content dedup -/

theorem acceptEntries_nodup (cands : List NewEntryCand) :
    ∀ (kb : List KBEntry) (added : Nat), contentsNodup kb →
      contentsNodup (acceptEntries kb added cands).1 := by
  induction cands with
  | nil => intro kb added h; exact h
  | cons c cs ih =>
    intro kb added h
    cases c with
    | junk => exact ih kb added h
    | mk content category =>
      by_cases h1 : content = ""
      · simp only [acceptEntries, if_pos h1]
        exact ih kb added h
      · by_cases h2 : kb.any (fun e => e.content == content) = true
        · simp only [acceptEntries, if_neg h1, if_pos h2]
          exact ih kb added h
        · simp only [acceptEntries, if_neg h1, if_neg h2]
          apply ih
          have hnm : content ∉ kb.map KBEntry.content := by
            intro hmem
            obtain ⟨e, he, hec⟩ := List.mem_map.mp hmem
            exact h2 (List.any_eq_true.mpr ⟨e, he, by simp [hec]⟩)
          unfold contentsNodup at h ⊢
          rw [List.map_append, List.map_singleton, ← List.concat_eq_append]
          exact List.Nodup.concat (by simpa using hnm) h

theorem manage_knowledge_nodup (o : KBOracle) (hist : List String)
    (tasks : List Task) (kb : List KBEntry) (c : Nat)
    (h : contentsNodup kb) (hc : contentsNodup (consolidateValid o.consolidated)) :
    contentsNodup (manage_knowledge o hist tasks kb c).1 := by
  unfold manage_knowledge
  split
  · exact h
  · dsimp only
    split
    · unfold consolidate_knowledge
      split
      · exact acceptEntries_nodup _ _ _ h
      · dsimp only
        split
        · exact acceptEntries_nodup _ _ _ h
        · exact hc
    · exact acceptEntries_nodup _ _ _ h

theorem runKBCycles_nodup (cycles : List KBCycle) :
    ∀ (kb : List KBEntry) (c : Nat), contentsNodup kb →
      (∀ cy ∈ cycles, contentsNodup (consolidateValid cy.oracle.consolidated)) →
      contentsNodup (runKBCycles (kb, c) cycles).1 := by
  induction cycles with
  | nil => intro kb c h _; exact h
  | cons cy rest ih =>
    intro kb c h hc
    simp only [runKBCycles]
    exact ih _ _
      (manage_knowledge_nodup _ _ _ _ _ h (hc cy (List.mem_cons_self cy rest)))
      (fun z hz => hc z (List.mem_cons_of_mem cy hz))

/-- C8 counterexample: starting from a duplicate-free list with the
consolidation counter one below the interval, a cycle whose consolidation
rewrite contains two entries with equal `content` leaves the per-phase list
with two entries of the same content — the rewrite is applied verbatim with
no dedup, so the at-most-one-entry-per-content property fails. -/
theorem consolidation_breaks_dedup_counterexample :
    contentsNodup [({ content := "a", category := "x" } : KBEntry)] ∧
    ¬contentsNodup (runKBCycles ([⟨"a", "x"⟩], 19) [⟨oC8, ["h"], []⟩]).1 := by
  constructor
  · decide
  · decide

/-- C8 (amended): submitting a candidate whose `content` equals an existing
entry's content adds nothing (exact-content dedup before insertion), and
starting from a duplicate-free list the per-phase list keeps at most one
entry per distinct content across any sequence of knowledge-update cycles,
provided no consolidation rewrite itself introduces duplicate contents
(rewrites are applied verbatim and can break the property otherwise). -/
theorem dedup_at_most_one_per_content (kb0 : List KBEntry) (c0 : Nat)
    (cycles : List KBCycle) (h0 : contentsNodup kb0)
    (hcons : ∀ cy ∈ cycles, contentsNodup (consolidateValid cy.oracle.consolidated)) :
    contentsNodup (runKBCycles (kb0, c0) cycles).1 ∧
    (∀ (kb : List KBEntry) (content category : String),
      kb.any (fun e => e.content == content) = true →
      acceptEntries kb 0 [NewEntryCand.mk content category] = (kb, 0)) := by
  constructor
  · exact runKBCycles_nodup cycles kb0 c0 h0 hcons
  · intro kb content category hmem
    by_cases h1 : content = ""
    · simp only [acceptEntries, if_pos h1]
    · simp only [acceptEntries, if_neg h1, if_pos hmem]

/-- Witness for C8's amended theorem at a concrete cycle and a concrete
duplicate submission. -/
theorem dedup_at_most_one_per_content_witness :
    contentsNodup (runKBCycles ([⟨"a", "x"⟩], 0) [cyC8w]).1 ∧
    acceptEntries [⟨"a", "x"⟩] 0 [NewEntryCand.mk "a" "y"] = ([⟨"a", "x"⟩], 0) := by
  have h := dedup_at_most_one_per_content [⟨"a", "x"⟩] 0 [cyC8w] (by decide) (by decide)
  exact ⟨h.1, h.2 [⟨"a", "x"⟩] "a" "y" (by decide)⟩

/-! ## C1: attempt ceiling versus oracle completion -/

/-- C1 counterexample: on the ceiling-reaching cycle (attempts go from 49 to
`MAX_TASK_ATTEMPTS = 50`) with the oracle signalling completion — and even
stuckness at the same time — `analyze` marks the task `completed`, not
`stuck`: the completion check runs before the ceiling check, so the claimed
"regardless of the oracle's decision" fails. -/
theorem analyze_ceiling_completed_wins_counterexample :
    sC1.task_attempts + 1 = MAX_TASK_ATTEMPTS ∧
    dC1.task_stuck = true ∧
    (analyzeFn dC1 sC1).task_stuck = false ∧
    (analyzeFn dC1 sC1).current_task.map Task.status = some Status.completed ∧
    (analyzeFn dC1 sC1).tasks.map Task.status = [Status.completed] := by
  decide

/-- C1 (amended): when the attempts counter reaches `MAX_TASK_ATTEMPTS` on a
cycle in which the oracle does not signal completion, the task transitions
to `stuck` on that same cycle regardless of whether the oracle signals
stuckness, and the attempt counter resets; when the oracle signals
completion the task is marked completed instead. -/
theorem analyze_ceiling_stuck_unless_completed (d : Decision) (s : AgentState)
    (hc : d.task_completed = false) (ha : MAX_TASK_ATTEMPTS ≤ s.task_attempts + 1) :
    (analyzeFn d s).task_stuck = true ∧
    (analyzeFn d s).current_task.map Task.status = s.current_task.map (fun _ => Status.stuck) ∧
    (analyzeFn d s).task_attempts = 0 := by
  simp only [analyzeFn, hc, Bool.false_eq_true, if_false]
  rw [if_pos (Or.inr ha)]
  refine ⟨rfl, ?_, rfl⟩
  cases s.current_task <;> rfl

/-- Witness for C1's amended theorem: attempts 49 → 50 with an oracle that
signals neither completion nor stuckness still yields `stuck`. -/
theorem analyze_ceiling_stuck_unless_completed_witness :
    (analyzeFn dC1w sC1).task_stuck = true ∧
    (analyzeFn dC1w sC1).current_task.map Task.status
      = sC1.current_task.map (fun _ => Status.stuck) ∧
    (analyzeFn dC1w sC1).task_attempts = 0 :=
  analyze_ceiling_stuck_unless_completed dC1w sC1 (by decide) (by decide)

/-! ## C3: reconnect frame condition -/

/-- C3 counterexample: a state entering the reconnect reset with
`task_completed` and `task_stuck` set keeps both flags set afterwards — the
reset clears only `should_reconnect`, `should_stop` and `should_exit`, not
all five control flags as claimed. -/
theorem reconnect_task_flags_counterexample :
    sC3.task_completed = true ∧ sC3.task_stuck = true ∧
    (reconnectReset [] sC3).task_completed = true ∧
    (reconnectReset [] sC3).task_stuck = true := by
  decide

/-- C3 (amended): on reconnection all run-state fields are preserved (phase,
phase name, tasks, current task, completed phases, environment type,
history, attempts, and also `task_completed`, `task_stuck` and the stuck
reason) except the connection-scoped transient fields — raw and cleaned
output, pending payload, the in-flight consolidation handle, and the three
flags `should_reconnect`, `should_stop`, `should_exit` — which are reset;
the active phase's knowledge store is reloaded from durable storage. -/
theorem reconnect_frame (s : AgentState) (dk : List KBEntry) :
    (reconnectReset dk s).phase = s.phase ∧
    (reconnectReset dk s).phase_name = s.phase_name ∧
    (reconnectReset dk s).tasks = s.tasks ∧
    (reconnectReset dk s).current_task = s.current_task ∧
    (reconnectReset dk s).completed_phases = s.completed_phases ∧
    (reconnectReset dk s).environment_type = s.environment_type ∧
    (reconnectReset dk s).history = s.history ∧
    (reconnectReset dk s).task_attempts = s.task_attempts ∧
    (reconnectReset dk s).task_completed = s.task_completed ∧
    (reconnectReset dk s).task_stuck = s.task_stuck ∧
    (reconnectReset dk s).task_stuck_reason = s.task_stuck_reason ∧
    (reconnectReset dk s).analysis = s.analysis ∧
    (reconnectReset dk s).kb_consolidation_counter = s.kb_consolidation_counter ∧
    (reconnectReset dk s).server_output = "" ∧
    (reconnectReset dk s).server_output_clean = "" ∧
    (reconnectReset dk s).payload = "" ∧
    (reconnectReset dk s).kb_update_future = none ∧
    (reconnectReset dk s).should_reconnect = false ∧
    (reconnectReset dk s).should_stop = false ∧
    (reconnectReset dk s).should_exit = false ∧
    (reconnectReset dk s).knowledge_base = dk := by
  refine ⟨rfl, rfl, rfl, rfl, rfl, rfl, rfl, rfl, rfl, rfl, rfl,
          rfl, rfl, rfl, rfl, rfl, rfl, rfl, rfl, rfl, rfl⟩

/-! ## C7: attempts reset on leaving `in_progress` -/

/-- C7: whenever `analyze` moves the task out of `in_progress` (completion
or stuckness, signalled by the corresponding flag in its result) the
resulting attempt counter is 0, and the planner's stuck-resolution step also
returns an attempt counter of 0. -/
theorem attempts_zero_on_leaving_in_progress (d : Decision) (o : PlannerOracle)
    (s s' : AgentState) :
    ((analyzeFn d s).task_completed = true ∨ (analyzeFn d s).task_stuck = true →
      (analyzeFn d s).task_attempts = 0) ∧
    (s'.task_stuck = true → (plannerFn o s').task_attempts = 0) := by
  constructor
  · intro h
    by_cases hc : d.task_completed = true
    · simp [analyzeFn, hc]
    · by_cases hs : d.task_stuck = true ∨ MAX_TASK_ATTEMPTS ≤ s.task_attempts + 1
      · simp [analyzeFn, hc, hs]
      · exfalso
        simp [analyzeFn, hc, hs] at h
  · intro h
    simp [plannerFn, h]

/-- Witness for C7 at a concrete completion and a concrete stuck
resolution. -/
theorem attempts_zero_on_leaving_in_progress_witness :
    (analyzeFn dC7 sC7).task_attempts = 0 ∧ (plannerFn oW sC7p).task_attempts = 0 := by
  have h := attempts_zero_on_leaving_in_progress dC7 oW sC7 sC7p
  exact ⟨h.1 (Or.inl (by decide)), h.2 (by decide)⟩

/-! ## C5 and C6: planner phase completion and task selection -/

theorem plannerFn_selection (o : PlannerOracle) (s : AgentState)
    (hstuck : s.task_stuck = false)
    (hcond : ¬(allDone (fillTasks o s) = true ∧ fillTasks o s ≠ [])) :
    (plannerFn o s).current_task = (assignNext o.plan (fillTasks o s)).1 ∧
    (plannerFn o s).tasks = (assignNext o.plan (fillTasks o s)).2 := by
  simp only [plannerFn]
  rw [if_neg (by simp [hstuck] : ¬s.task_stuck = true), if_neg hcond]
  rcases h : assignNext o.plan (fillTasks o s) with ⟨a, b⟩
  cases a <;> exact ⟨rfl, rfl⟩

/-- C5 counterexample: with an empty task list entering the completion check
(the oracle generated zero tasks for phase 2), every task vacuously has
status `completed`/`skipped` and the environment is the terminal non-text
kind, yet the planner neither sets the exit flag nor advances the phase —
the source requires the list to be non-empty (`all_done and tasks`). -/
theorem empty_tasklist_no_exit_counterexample :
    allDone (fillTasks oC5 sC5) = true ∧
    sC5.environment_type = "non_text" ∧
    (plannerFn oC5 sC5).should_exit = false ∧
    (plannerFn oC5 sC5).phase = sC5.phase := by
  decide

/-- C5 (amended): a *non-empty* phase task list is judged complete exactly
when every task has status `completed` or `skipped`; when that holds and
the environment classification is `non_text` the planner sets the exit flag
(reaching the Exited terminal) without generating tasks for a next phase,
otherwise a new phase numbered phase+1 is created with a frozen summary and
a reset knowledge store; when some task is unfinished neither happens. -/
theorem phase_completion_behavior (o : PlannerOracle) (s : AgentState)
    (hstuck : s.task_stuck = false) (hne : fillTasks o s ≠ []) :
    (allDone (fillTasks o s) = true → s.environment_type = "non_text" →
      (plannerFn o s).should_exit = true ∧
      (plannerFn o s).phase = s.phase ∧
      (plannerFn o s).tasks = fillTasks o s ∧
      (plannerFn o s).completed_phases = s.completed_phases) ∧
    (allDone (fillTasks o s) = true → s.environment_type ≠ "non_text" →
      (plannerFn o s).phase = s.phase + 1 ∧
      (plannerFn o s).should_exit = s.should_exit ∧
      (plannerFn o s).completed_phases
        = s.completed_phases ++ [mkSummary s.phase s.phase_name (fillTasks o s)] ∧
      (plannerFn o s).knowledge_base = []) ∧
    (allDone (fillTasks o s) = false →
      (plannerFn o s).phase = s.phase ∧
      (plannerFn o s).should_exit = s.should_exit) := by
  have hns : ¬s.task_stuck = true := by simp [hstuck]
  refine ⟨?_, ?_, ?_⟩
  · intro hall henv
    simp only [plannerFn]
    rw [if_neg hns, if_pos ⟨hall, hne⟩, if_pos henv]
    exact ⟨rfl, rfl, rfl, rfl⟩
  · intro hall henv
    simp only [plannerFn]
    rw [if_neg hns, if_pos ⟨hall, hne⟩, if_neg henv]
    cases hm : mkTasks (s.phase + 1) o.gen_tasks with
    | nil => exact ⟨rfl, rfl, rfl, rfl⟩
    | cons t rest => exact ⟨rfl, rfl, rfl, rfl⟩
  · intro hall
    have hcond : ¬(allDone (fillTasks o s) = true ∧ fillTasks o s ≠ []) := by
      simp [hall]
    simp only [plannerFn]
    rw [if_neg hns, if_neg hcond]
    rcases h : assignNext o.plan (fillTasks o s) with ⟨a, b⟩
    cases a <;> exact ⟨rfl, rfl⟩

/-- Witness for C5's amended theorem: the exit case, the advance case and
the unfinished case at concrete states. -/
theorem phase_completion_behavior_witness :
    (plannerFn oC5 sC5e).should_exit = true ∧
    (plannerFn oC5a sC5a).phase = 3 ∧
    (plannerFn oC5 sC5n).should_exit = sC5n.should_exit := by
  refine ⟨((phase_completion_behavior oC5 sC5e (by decide) (by decide)).1
            (by decide) (by decide)).1,
          ((phase_completion_behavior oC5a sC5a (by decide) (by decide)).2.1
            (by decide) (by decide)).1,
          ((phase_completion_behavior oC5 sC5n (by decide) (by decide)).2.2
            (by decide)).2⟩

/-- C6: entering the planner's selection step (no stuck task, phase not
complete), a task left `in_progress` by a reconnect is re-selected as the
current task — even when `pending` tasks precede it in list order — and only
when no task is `in_progress` is the first `pending` task in list order
selected. -/
theorem planner_reselects_in_progress_first (o : PlannerOracle) (s : AgentState)
    (hstuck : s.task_stuck = false) (hnd : allDone (fillTasks o s) = false) :
    (∀ t, (fillTasks o s).find? isIP = some t →
      (plannerFn o s).current_task = some (setAssigned o.plan t)) ∧
    ((fillTasks o s).find? isIP = none →
      (plannerFn o s).current_task
        = ((fillTasks o s).find? isPending).map (setAssigned o.plan)) := by
  have hcond : ¬(allDone (fillTasks o s) = true ∧ fillTasks o s ≠ []) := by
    simp [hnd]
  have hsel := plannerFn_selection o s hstuck hcond
  constructor
  · intro t ht
    rw [hsel.1]
    unfold assignNext
    rw [ht]
  · intro ht
    rw [hsel.1]
    unfold assignNext
    rw [ht]
    cases hp : (fillTasks o s).find? isPending <;> simp

/-- Witness for C6: with a `pending` task listed before an interrupted
`in_progress` task, the planner re-selects the interrupted one. -/
theorem planner_reselects_in_progress_first_witness :
    (plannerFn oC6 sC6).current_task = some (setAssigned "newplan" tI6) :=
  ((planner_reselects_in_progress_first oC6 sC6 (by decide) (by decide)).1
    tI6 (by decide))

/-! ## C2: at most one `in_progress` task in any reachable state -/

theorem markFirst_countIP_le (tid : Option String) (st : Status) (res : String)
    (hst : (st == Status.in_progress) = false) (tasks : List Task) :
    countIP (markFirst tid st res tasks) ≤ countIP tasks := by
  cases tid with
  | none => exact Nat.le_refl _
  | some i => exact updateFirst_countIP_le (fun t _ => by simp [isIP, hst]) tasks

theorem analyzeFn_countIP (d : Decision) (s : AgentState) :
    countIP (analyzeFn d s).tasks ≤ countIP s.tasks := by
  simp only [analyzeFn]
  split
  · exact markFirst_countIP_le _ Status.completed _ rfl s.tasks
  · split
    · exact markFirst_countIP_le _ Status.stuck _ rfl s.tasks
    · exact Nat.le_refl _

theorem stuckApply_not_ip (o : PlannerOracle) (ct : Option Task) (r : String)
    (t : Task) : isIP (applyUpdates (stuckUpdates o ct r) t) = false := by
  simp only [applyUpdates, isIP, stuckUpdates]
  repeat' split
  all_goals rfl

theorem assignNext_countIP (plan : String) (tasks : List Task)
    (h : countIP tasks ≤ 1) : countIP (assignNext plan tasks).2 ≤ 1 := by
  unfold assignNext
  cases hip : tasks.find? isIP with
  | some t =>
    dsimp only
    rw [updateFirst_countIP_eq (fun u hu => by rw [hu]; simp [isIP, setAssigned]) tasks]
    exact h
  | none =>
    cases hp : tasks.find? isPending with
    | some t =>
      dsimp only
      have h0 : countIP tasks = 0 := countIP_eq_zero_of_find?_none hip
      have h1 := updateFirst_countIP_le_succ isPending (setAssigned plan) tasks
      omega
    | none => exact h

theorem fillTasks_countIP (o : PlannerOracle) (s : AgentState)
    (h : countIP s.tasks ≤ 1) : countIP (fillTasks o s) ≤ 1 := by
  unfold fillTasks
  split
  · split
    · rw [PHASE1_countIP]; omega
    · rw [mkTasks_countIP]; omega
  · exact h

theorem plannerFn_countIP (o : PlannerOracle) (s : AgentState)
    (h : countIP s.tasks ≤ 1) : countIP (plannerFn o s).tasks ≤ 1 := by
  have hfill := fillTasks_countIP o s h
  simp only [plannerFn]
  split
  · exact le_trans
      (updateFirst_countIP_le
        (fun t _ => stuckApply_not_ip o s.current_task s.task_stuck_reason t) _)
      hfill
  · split
    · split
      · exact hfill
      · cases hm : mkTasks (s.phase + 1) o.gen_tasks with
        | nil => simp [countIP]
        | cons t rest =>
          dsimp only
          rw [countIP_cons]
          have h0 : countIP (t :: rest) = 0 :=
            hm ▸ mkTasks_countIP (s.phase + 1) o.gen_tasks
          rw [countIP_cons] at h0
          have h1 : countIP rest = 0 := by omega
          rw [h1]
          simp [isIP, setAssigned]
    · rcases ha : assignNext o.plan (fillTasks o s) with ⟨a, b⟩
      have hb : countIP b ≤ 1 := by
        have h2 := assignNext_countIP o.plan (fillTasks o s) hfill
        rw [ha] at h2
        exact h2
      cases a <;> exact hb

theorem reachable_countIP (dk : List KBEntry) (s : AgentState)
    (h : Reachable dk s) : countIP s.tasks ≤ 1 := by
  induction h with
  | init => exact Nat.zero_le 1
  | planner o hprev ih => exact plannerFn_countIP _ _ ih
  | observe r hprev ih =>
    cases r with
    | none => exact ih
    | some p => cases p with | mk a b => exact ih
  | start_kb hprev ih => exact ih
  | analyze d hprev ih => exact le_trans (analyzeFn_countIP d _) ih
  | act ok hprev ih =>
    simp only [actFn]
    split
    · split <;> exact ih
    · exact ih
  | sync r hprev ih =>
    simp only [syncFn]
    split
    · exact ih
    · split <;> exact ih
  | reconnect kb hprev ih => exact ih

/-- C2: for every state reachable from the initial state by any sequence of
scheduler steps (planner, observe, background dispatch, analyze, act,
knowledge sync, reconnect reset, with arbitrary oracle decisions and
transport outcomes at every step), at most one task of the active phase's
task list has status `in_progress`, assuming task ids are unique within the
phase. -/
theorem at_most_one_in_progress (dk : List KBEntry) (s : AgentState)
    (h : Reachable dk s) (_hu : (s.tasks.map Task.id).Nodup) :
    countIP s.tasks ≤ 1 :=
  reachable_countIP dk s h

/-- Witness for C2 at the concrete state reached by one planner step from
the initial state (the two phase-1 seed tasks, the first assigned). -/
theorem at_most_one_in_progress_witness :
    countIP (plannerFn oW (initState [])).tasks ≤ 1 :=
  at_most_one_in_progress [] (plannerFn oW (initState []))
    (Reachable.planner oW Reachable.init) (by decide)

end Mudbot
